import Mathlib

set_option maxRecDepth 8000

/- Shallow embedding of the Discord meeting-recorder bot.

   Source files embedded here:
   - src/utils.py : combine_audio, transcribe, summarize, pdf_from_markdown
   - src/bot.py   : Session, safe_connect, on_chunk_end, recorder, the
     record/leave/process slash-command handlers.

   Modelling conventions:
   - file paths are numbered (Nat); file contents are Bytes = List Nat;
   - the file system is an explicit map FS = Nat -> Option Bytes threaded
     through every operation that touches disk;
   - external collaborators (ffmpeg, the Whisper API, the chat-completion
     API, the FPDF renderer) are oracle functions supplied in environment
     records: the embedding fixes the control flow of the source, the
     oracle fixes the collaborator's answer;
   - fallible Python code (exceptions) becomes Except String, and an
     exception escaping a handler is recorded in an `exn` field of the
     handler's result. -/

abbrev Bytes := List Nat

/-- File system model: a map from numbered paths to file contents. -/
def FS : Type := Nat → Option Bytes

/-- Writing a file truncates: `open(p, "wb")` followed by a full write. -/
def fsUpdate (fs : FS) (p : Nat) (b : Bytes) : FS :=
  fun q => if q = p then some b else fs q

/-- `Path.unlink`. -/
def fsRemove (fs : FS) (p : Nat) : FS :=
  fun q => if q = p then none else fs q

/-- A discord.VoiceClient, reduced to what the bot inspects: its identity,
    its guild, and `is_connected()`. -/
structure VoiceClient where
  id : Nat
  guild : Nat
  connected : Bool
deriving DecidableEq, Repr

/-- The Session object of src/bot.py lines 20-26: `active`, `vc`,
    `chunks` (paths of written chunk files), `task` (handle of the
    recorder background task, by id). -/
structure Session where
  active : Bool
  vc : Option VoiceClient
  chunks : List Nat
  task : Option Nat
deriving DecidableEq, Repr

/-- `Session.__init__` (src/bot.py lines 21-25), also used by the handlers
    as the reset `session.__init__()`. -/
def Session.init : Session :=
  ⟨false, none, [], none⟩

/-- The bot's global view of voice connections, `bot.voice_clients`. -/
structure BotState where
  voiceClients : List VoiceClient
deriving DecidableEq, Repr

/-- An ApplicationContext, reduced to what the handlers inspect: the guild
    the command came from and the author's voice channel (if any). -/
structure Interaction where
  guild : Nat
  authorChannel : Option Nat
deriving DecidableEq, Repr

/-- The for-loop of src/bot.py lines 32-34: first voice client of the
    bot that is in the interaction's guild and is connected. -/
def findGuildVC : List VoiceClient → Nat → Option VoiceClient
  | [], _ => none
  | vc :: rest, g =>
      if vc.guild = g ∧ vc.connected then some vc else findGuildVC rest g

/-- Continuation of safe_connect after the cached-client check has fallen
    through (src/bot.py lines 32-38): scan `bot.voice_clients`, else demand
    the author be in a voice channel, else connect a fresh client
    (`freshId` names the client the library would create). Returns the
    client, the updated session and the updated bot state. -/
def safe_connect_rest (s : Session) (bot : BotState) (inter : Interaction)
    (freshId : Nat) : Except String (VoiceClient × Session × BotState) :=
  match findGuildVC bot.voiceClients inter.guild with
  | some vc => Except.ok (vc, { s with vc := some vc }, bot)
  | none =>
      match inter.authorChannel with
      | none => Except.error "You must join a voice channel first."
      | some _ =>
          let nvc : VoiceClient := ⟨freshId, inter.guild, true⟩
          Except.ok (nvc, { s with vc := some nvc },
                     { bot with voiceClients := bot.voiceClients ++ [nvc] })

/-- `safe_connect` (src/bot.py lines 29-38): if the session's cached voice
    client exists and is connected it is returned unchanged, with no guild
    check; otherwise fall through to the scan/connect tail. -/
def safe_connect (s : Session) (bot : BotState) (inter : Interaction)
    (freshId : Nat) : Except String (VoiceClient × Session × BotState) :=
  match s.vc with
  | some vc =>
      if vc.connected then Except.ok (vc, s, bot)
      else safe_connect_rest s bot inter freshId
  | none => safe_connect_rest s bot inter freshId

/-- Environment of one `combine_audio` call: the two `tempfile.mktemp`
    names and whether the ffmpeg concat subprocess succeeds. -/
structure ConcatEnv where
  flistPath : Nat
  outPath : Nat
  ffmpegOk : Bool
deriving DecidableEq, Repr

/-- Contents of the concat list file `flist` (the txt of "file ..." lines);
    modelled as the list of paths itself. -/
def encodeFileList (files : List Nat) : Bytes :=
  files

/-- `combine_audio` (src/utils.py lines 10-22). One file: return it, no
    file-system effect at all. Several files: write the list file, run
    ffmpeg concat with stream copy (modelled as byte concatenation of the
    inputs, written to `outPath`), unlink the list file, return the output
    path. If ffmpeg fails, `check=True` raises before the unlink. -/
def combine_audio (wavFiles : List Nat) (fs : FS) (env : ConcatEnv) :
    Except String Nat × FS :=
  if wavFiles.length = 1 then (Except.ok (wavFiles.headD 0), fs)
  else
    let fs1 := fsUpdate fs env.flistPath (encodeFileList wavFiles)
    if env.ffmpegOk then
      let outB := (wavFiles.map fun p => (fs p).getD []).flatten
      let fs2 := fsUpdate fs1 env.outPath outB
      (Except.ok env.outPath, fsRemove fs2 env.flistPath)
    else (Except.error "CalledProcessError", fs1)

/-- Environment of one `transcribe` call: the Whisper API's answer as a
    function of the bytes sent, the ffmpeg re-encode oracle (given the
    input file's contents, if found), and the `tempfile.mktemp` mp3 name. -/
structure TranscribeEnv where
  whisper : Bytes → Except String String
  ffmpegMp3 : Option Bytes → Except String Bytes
  mp3Path : Nat

/-- Result of `transcribe`: the value or escaping exception, the file
    system afterwards, how many re-encode fallbacks ran, and how many
    fallback (retried) transcription calls ran. -/
structure TOut where
  result : Except String String
  fs : FS
  reencodes : Nat
  retries : Nat

/-- The body of the first try-block of `transcribe` (src/utils.py lines
    26-32): open the file (raises if absent) and send its bytes. -/
def firstAttempt (wavPath : Nat) (fs : FS) (env : TranscribeEnv) :
    Except String String :=
  match fs wavPath with
  | none => Except.error "FileNotFoundError"
  | some b => env.whisper b

/-- `transcribe` (src/utils.py lines 24-51): try the original file; on any
    exception re-encode to mp3 and retry exactly once. The `finally`
    unlinks the temp mp3 (missing_ok, so a no-op when ffmpeg never wrote
    it). A failing re-encode or failing retry escapes as the result. -/
def transcribe (wavPath : Nat) (fs : FS) (env : TranscribeEnv) : TOut :=
  match firstAttempt wavPath fs env with
  | Except.ok t => ⟨Except.ok t, fs, 0, 0⟩
  | Except.error _ =>
      match env.ffmpegMp3 (fs wavPath) with
      | Except.error e => ⟨Except.error e, fs, 1, 0⟩
      | Except.ok mp3 =>
          let fs1 := fsUpdate fs env.mp3Path mp3
          ⟨env.whisper mp3, fsRemove fs1 env.mp3Path, 1, 1⟩

/-- Messages the handlers send back (followup.send / user.send), reduced
    to tags; payload paths kept where a file is attached. -/
inductive Msg where
  | alreadyRecording
  | notRecording
  | joinFail (e : String)
  | recordingStarted
  | processing
  | summaryDelivered (pdf : Nat)
  | busy
  | fileNotFound
  | processingFile
  | summaryForFile (pdf : Nat)
  | doneDM
  | leftChannel
deriving DecidableEq, Repr

/-- Pipeline stages, in the order the stop handler runs them. -/
inductive Stage where
  | merge
  | transcribeStage
  | summarizeStage
  | renderStage
  | deliver
deriving DecidableEq, Repr

/-- Environment of one record/process invocation: oracles for every
    external collaborator plus the fresh names the call would mint. -/
structure RecordEnv where
  cenv : ConcatEnv
  tenv : TranscribeEnv
  summarizer : String → Except String String
  render : String → Except String Bytes
  pdfPath : Nat
  freshVC : Nat
  freshTask : Nat

/-- Result of one handler invocation. `exn` is an exception escaping the
    handler uncaught (the source has no try/except around its pipeline). -/
structure RecordOut where
  session : Session
  bot : BotState
  fs : FS
  msgs : List Msg
  stages : List Stage
  exn : Option String

/-- The two actions of the `/record` command. -/
inductive RAction where
  | start
  | stop
deriving DecidableEq, Repr

/-- The `/record` handler (src/bot.py lines 63-97).

    start: reject when already active (line 71), else safe_connect (a
    RuntimeError is caught and reported, line 75), else set active, spawn
    the recorder task and report.

    stop: reject when not active (line 83); else clear `active`, await the
    recorder task (whose `finally` clears `session.task`), send the
    processing notice, then run merge → transcribe → summarize → render →
    deliver with no exception handling: the first failing stage's
    exception escapes the handler with the session NOT reset; only the
    fully successful path reaches `session.__init__()` (line 97). -/
def record (action : RAction) (s : Session) (bot : BotState)
    (inter : Interaction) (env : RecordEnv) (fs : FS) : RecordOut :=
  match action with
  | RAction.start =>
      if s.active then ⟨s, bot, fs, [Msg.alreadyRecording], [], none⟩
      else
        match safe_connect s bot inter env.freshVC with
        | Except.error e => ⟨s, bot, fs, [Msg.joinFail e], [], none⟩
        | Except.ok (_, s1, bot1) =>
            ⟨{ s1 with active := true, task := some env.freshTask },
             bot1, fs, [Msg.recordingStarted], [], none⟩
  | RAction.stop =>
      if !s.active then ⟨s, bot, fs, [Msg.notRecording], [], none⟩
      else
        let s1 : Session := { s with active := false, task := none }
        match combine_audio s1.chunks fs env.cenv with
        | (Except.error e, fs1) =>
            ⟨s1, bot, fs1, [Msg.processing], [Stage.merge], some e⟩
        | (Except.ok merged, fs1) =>
            let t := transcribe merged fs1 env.tenv
            match t.result with
            | Except.error e =>
                ⟨s1, bot, t.fs, [Msg.processing],
                 [Stage.merge, Stage.transcribeStage], some e⟩
            | Except.ok text =>
                match env.summarizer text with
                | Except.error e =>
                    ⟨s1, bot, t.fs, [Msg.processing],
                     [Stage.merge, Stage.transcribeStage,
                      Stage.summarizeStage], some e⟩
                | Except.ok md =>
                    match env.render md with
                    | Except.error e =>
                        ⟨s1, bot, t.fs, [Msg.processing],
                         [Stage.merge, Stage.transcribeStage,
                          Stage.summarizeStage, Stage.renderStage], some e⟩
                    | Except.ok pdfBytes =>
                        ⟨Session.init, bot,
                         fsUpdate t.fs env.pdfPath pdfBytes,
                         [Msg.processing, Msg.summaryDelivered env.pdfPath],
                         [Stage.merge, Stage.transcribeStage,
                          Stage.summarizeStage, Stage.renderStage,
                          Stage.deliver], none⟩

/-- The filename/path checks of `/process` (src/bot.py line 134):
    `wav_path.exists()`, `wav_path.is_file()`, suffix is ".wav". -/
structure FileInfo where
  present : Bool
  isFile : Bool
  wavSuffix : Bool
deriving DecidableEq, Repr

/-- Result of one `/process` invocation (no bot-state effect). -/
structure ProcOut where
  session : Session
  fs : FS
  msgs : List Msg
  stages : List Stage
  exn : Option String

/-- The `/process` handler (src/bot.py lines 114-152): reject while
    `session.active` (line 126) — the ONLY session guard in the source;
    then validate the file; then run transcribe → summarize → render →
    deliver, again with no exception handling. The session is never
    mutated by this handler. -/
def process (s : Session) (info : FileInfo) (wavPath : Nat)
    (env : RecordEnv) (fs : FS) : ProcOut :=
  if s.active then ⟨s, fs, [Msg.busy], [], none⟩
  else if !(info.present && info.isFile && info.wavSuffix) then
    ⟨s, fs, [Msg.fileNotFound], [], none⟩
  else
    let t := transcribe wavPath fs env.tenv
    match t.result with
    | Except.error e =>
        ⟨s, t.fs, [Msg.processingFile], [Stage.transcribeStage], some e⟩
    | Except.ok text =>
        match env.summarizer text with
        | Except.error e =>
            ⟨s, t.fs, [Msg.processingFile],
             [Stage.transcribeStage, Stage.summarizeStage], some e⟩
        | Except.ok md =>
            match env.render md with
            | Except.error e =>
                ⟨s, t.fs, [Msg.processingFile],
                 [Stage.transcribeStage, Stage.summarizeStage,
                  Stage.renderStage], some e⟩
            | Except.ok pdfBytes =>
                ⟨s, fsUpdate t.fs env.pdfPath pdfBytes,
                 [Msg.processingFile, Msg.summaryForFile env.pdfPath,
                  Msg.doneDM],
                 [Stage.transcribeStage, Stage.summarizeStage,
                  Stage.renderStage, Stage.deliver], none⟩

/-- The `/leave` handler (src/bot.py lines 99-105): disconnect the
    session's voice client if it is connected, then `session.__init__()`.
    Returns the new session and the id of the client disconnected, if
    any. The handler has no failure path. -/
def leave (s : Session) : Session × Option Nat :=
  match s.vc with
  | some vc =>
      if vc.connected then (Session.init, some vc.id)
      else (Session.init, none)
  | none => (Session.init, none)

/-- The per-speaker write loop of `on_chunk_end` (src/bot.py lines 41-43):
    for each speaker's audio, open `fname` in "wb" mode — truncating — and
    write that speaker's bytes. -/
def writeSpeakers : List (Nat × Bytes) → Nat → FS → FS
  | [], _, fs => fs
  | (_, b) :: rest, fname, fs => writeSpeakers rest fname (fsUpdate fs fname b)

/-- `on_chunk_end` (src/bot.py lines 40-44): write every speaker's audio
    to the one chunk file, then append the chunk path to the session's
    chunk list. -/
def on_chunk_end (audioData : List (Nat × Bytes)) (fname : Nat) (fs : FS)
    (s : Session) : FS × Session :=
  (writeSpeakers audioData fname fs,
   { s with chunks := s.chunks ++ [fname] })

/- ── Interleaving model of the stop transition ──────────────────────────

   The stop path of `/record`, the tail of the `recorder` task and the
   py-cord chunk-completion callback run concurrently on one asyncio event
   loop (plus the library's audio-receive thread). We model each as a
   queue of atomic actions separated at the real suspension points, and a
   schedule as the order in which the event loop runs them. -/

/-- Atomic actions of the concurrent tasks around a stop.

    Stop handler (src/bot.py lines 82-97):
    `setInactive` (line 86), `awaitTask` (line 87, enabled only once the
    recorder's finally has cleared `session.task`), `sendMsg` (line 88, a
    suspension point), `pipelineMerge` (line 90, the synchronous
    `combine_audio(session.chunks)` call — the moment the chunk list is
    read), `pipelineRest` (lines 91-96), `resetSess` (line 97).

    Recorder tail (src/bot.py lines 56-60), runnable once `active` is
    false: `recStopRecording f` — the final `stop_recording()` call.
    Modelled from the spec: the library's chunk-completion notification is
    callback-based, scheduled asynchronously rather than awaited by the
    caller ("Callback-based chunk-completion notification → replace with a
    synchronous or awaited completion signal ... so the state machine can
    deterministically know when a flush is done", spec section 9), so
    `recStopRecording` only makes the callback for chunk `f` pending.
    `recClearTask` — the finally of `recorder`, `session.task = None`.

    Callback (src/bot.py lines 40-44): `cbAppend f` — runnable only once
    scheduled — appends `f` to `session.chunks`.

    Process handler (src/bot.py lines 114-152): `procGuard` — the
    `session.active` check, which on rejection abandons the rest of the
    handler; `procStages` — its pipeline stages. -/
inductive Act where
  | setInactive
  | awaitTask
  | sendMsg
  | pipelineMerge
  | pipelineRest
  | resetSess
  | recStopRecording (f : Nat)
  | recClearTask
  | cbAppend (f : Nat)
  | procGuard
  | procStages
deriving DecidableEq, Repr

/-- Shared state of the interleaved execution: the session, the set of
    scheduled-but-not-run chunk callbacks, the chunk list snapshot passed
    to `combine_audio` (if the merge has run), and the outcome of the
    `/process` handler (some true = rejected busy, some false = its
    pipeline stages ran). -/
structure CState where
  session : Session
  pending : List Nat
  mergedInput : Option (List Nat)
  procOutcome : Option Bool
deriving DecidableEq, Repr

/-- One atomic action against the shared state. `none` means the action
    is not enabled (the task is blocked at this point under this
    schedule). The Bool is true when the action ends its task early (the
    `/process` busy rejection returns from the handler). -/
def runAct : Act → CState → Option (CState × Bool)
  | Act.setInactive, st =>
      some ({ st with session := { st.session with active := false } }, false)
  | Act.awaitTask, st =>
      if st.session.task = none then some (st, false) else none
  | Act.sendMsg, st => some (st, false)
  | Act.pipelineMerge, st =>
      some ({ st with mergedInput := some st.session.chunks }, false)
  | Act.pipelineRest, st => some (st, false)
  | Act.resetSess, st => some ({ st with session := Session.init }, false)
  | Act.recStopRecording f, st =>
      if st.session.active = false then
        some ({ st with pending := st.pending ++ [f] }, false)
      else none
  | Act.recClearTask, st =>
      some ({ st with session := { st.session with task := none } }, false)
  | Act.cbAppend f, st =>
      if f ∈ st.pending then
        some ({ st with
                 pending := st.pending.erase f,
                 session := { st.session with
                              chunks := st.session.chunks ++ [f] } }, false)
      else none
  | Act.procGuard, st =>
      if st.session.active then some ({ st with procOutcome := some true }, true)
      else some (st, false)
  | Act.procStages, st => some ({ st with procOutcome := some false }, false)

/-- The four concurrent tasks around one stop, each a queue of remaining
    atomic actions. -/
inductive TaskId where
  | stopT
  | recT
  | cbT
  | procT
deriving DecidableEq, Repr

/-- Shared state plus each task's remaining actions. -/
structure Conc where
  st : CState
  stopQ : List Act
  recQ : List Act
  cbQ : List Act
  procQ : List Act
deriving DecidableEq, Repr

/-- Run the next action of the named task, if that task has one and it is
    enabled. -/
def step (t : TaskId) (c : Conc) : Option Conc :=
  match t with
  | TaskId.stopT =>
      match c.stopQ with
      | [] => none
      | a :: rest =>
          match runAct a c.st with
          | none => none
          | some (st1, drop) =>
              some { c with st := st1, stopQ := if drop then [] else rest }
  | TaskId.recT =>
      match c.recQ with
      | [] => none
      | a :: rest =>
          match runAct a c.st with
          | none => none
          | some (st1, drop) =>
              some { c with st := st1, recQ := if drop then [] else rest }
  | TaskId.cbT =>
      match c.cbQ with
      | [] => none
      | a :: rest =>
          match runAct a c.st with
          | none => none
          | some (st1, drop) =>
              some { c with st := st1, cbQ := if drop then [] else rest }
  | TaskId.procT =>
      match c.procQ with
      | [] => none
      | a :: rest =>
          match runAct a c.st with
          | none => none
          | some (st1, drop) =>
              some { c with st := st1, procQ := if drop then [] else rest }

/-- Run a whole schedule; `none` when the schedule picks a blocked or
    finished task (an invalid schedule). -/
def run : List TaskId → Conc → Option Conc
  | [], c => some c
  | t :: ts, c =>
      match step t c with
      | none => none
      | some c1 => run ts c1

/-- The final chunk of the cycle: the one the recorder's last
    `stop_recording()` flushes. -/
def finalChunk : Nat := 1

/-- Concrete configuration the moment a stop command arrives: the session
    is recording (task 7 running, one completed chunk 0 in `chunks`), the
    recorder is at its tail, the callback for the final chunk 1 is not yet
    scheduled, and a `/process` command is waiting its turn. -/
def conc0 : Conc :=
  { st := { session := ⟨true, some ⟨0, 1, true⟩, [0], some 7⟩,
            pending := [], mergedInput := none, procOutcome := none },
    stopQ := [Act.setInactive, Act.awaitTask, Act.sendMsg,
              Act.pipelineMerge, Act.pipelineRest, Act.resetSess],
    recQ := [Act.recStopRecording finalChunk, Act.recClearTask],
    cbQ := [Act.cbAppend finalChunk],
    procQ := [Act.procGuard, Act.procStages] }

/-- A schedule the event loop is free to choose: the recorder finishes and
    the stop handler runs its whole pipeline before the library's audio
    thread gets the final-chunk callback onto the loop. -/
def schedDrop : List TaskId :=
  [TaskId.stopT, TaskId.recT, TaskId.recT, TaskId.stopT, TaskId.stopT,
   TaskId.stopT, TaskId.cbT, TaskId.stopT, TaskId.stopT]

/-- The benign schedule: the callback lands before the merge. -/
def schedGood : List TaskId :=
  [TaskId.stopT, TaskId.recT, TaskId.recT, TaskId.cbT, TaskId.stopT,
   TaskId.stopT, TaskId.stopT, TaskId.stopT, TaskId.stopT]

/-- Schedule under which `/process` runs while the stop cycle is between
    clearing `active` and invoking its pipeline (the Finalizing window at
    the line-88 suspension point). -/
def schedFinalizing : List TaskId :=
  [TaskId.stopT, TaskId.recT, TaskId.recT, TaskId.stopT, TaskId.stopT,
   TaskId.procT, TaskId.procT]

/- ── Concrete instances used by counterexamples and witnesses ────────── -/

/-- The empty file system. -/
def fs0 : FS := fun _ => none

/-- A bot with no voice clients. -/
def bot0 : BotState := ⟨[]⟩

/-- An interaction from guild 1 whose author sits in voice channel 3. -/
def inter0 : Interaction := ⟨1, some 3⟩

/-- A recording session holding two completed chunks (files 10 and 11). -/
def sFail : Session := ⟨true, some ⟨0, 1, true⟩, [10, 11], some 7⟩

/-- File system holding the two chunk files of `sFail`. -/
def fsFail : FS := fun p => if p = 10 ∨ p = 11 then some [1] else none

/-- Environment where every transcription attempt fails and the fallback
    re-encode also fails, so the stop pipeline dies at the transcribe
    stage; fresh paths 100-103 are disjoint from the chunk files. -/
def envFail : RecordEnv :=
  { cenv := ⟨100, 101, true⟩,
    tenv := { whisper := fun _ => Except.error "unsupported",
              ffmpegMp3 := fun _ => Except.error "ffmpeg failed",
              mp3Path := 102 },
    summarizer := fun _ => Except.ok "md",
    render := fun _ => Except.ok [0],
    pdfPath := 103,
    freshVC := 50,
    freshTask := 51 }

/-- Transcription environment whose first attempt fails on the original
    bytes but succeeds on the re-encoded mp3 bytes [9]. -/
def envT : TranscribeEnv :=
  { whisper := fun b => if b = [9] then Except.ok "text" else Except.error "bad",
    ffmpegMp3 := fun _ => Except.ok [9],
    mp3Path := 102 }

/-- File system holding only the input wav (file 5). -/
def fsT : FS := fun p => if p = 5 then some [0] else none

/-- A live voice client in guild 1. -/
def vcA : VoiceClient := ⟨0, 1, true⟩

/-- A live voice client in guild 2. -/
def vcB : VoiceClient := ⟨5, 2, true⟩

/-- A non-active session still caching the live guild-1 client (reachable:
    a stop-pipeline exception skips the reset, leaving `vc` set while
    `active` is already false). -/
def sC9 : Session := ⟨false, some vcA, [], none⟩

/-- Bot connected in both guilds. -/
def botC9 : BotState := ⟨[vcA, vcB]⟩

/-- An interaction from guild 2, author in a voice channel. -/
def interC9 : Interaction := ⟨2, some 3⟩

/- ── Helper lemmas ───────────────────────────────────────────────────── -/

theorem combine_audio_fs_apply (files : List Nat) (fs : FS) (env : ConcatEnv)
    (p : Nat) (h1 : p ≠ env.flistPath) (h2 : p ≠ env.outPath) :
    (combine_audio files fs env).2 p = fs p := by
  by_cases hl : files.length = 1
  · simp [combine_audio, hl]
  · by_cases hff : env.ffmpegOk <;>
      simp [combine_audio, hl, hff, fsUpdate, fsRemove, h1, h2]

theorem transcribe_fs_apply (w : Nat) (fs : FS) (env : TranscribeEnv)
    (p : Nat) (h : p ≠ env.mp3Path) :
    (transcribe w fs env).fs p = fs p := by
  rcases h1 : firstAttempt w fs env with e | t
  · rcases h2 : env.ffmpegMp3 (fs w) with e2 | mp3 <;>
      simp [transcribe, h1, h2, fsUpdate, fsRemove, h]
  · simp [transcribe, h1]

theorem writeSpeakers_self (data : List (Nat × Bytes)) (f : Nat) (fs : FS) :
    writeSpeakers data f fs f =
      match data.getLast? with
      | some pb => some pb.2
      | none => fs f := by
  induction data generalizing fs with
  | nil => rfl
  | cons hd tl ih =>
      obtain ⟨a, b⟩ := hd
      cases tl with
      | nil => simp [writeSpeakers, fsUpdate]
      | cons hd2 tl2 =>
          rw [show writeSpeakers ((a, b) :: hd2 :: tl2) f fs
                = writeSpeakers (hd2 :: tl2) f (fsUpdate fs f b) from rfl]
          rw [ih]
          rcases h : (hd2 :: tl2).getLast? with _ | pb
          · simp [List.getLast?_eq_none_iff] at h
          · simp [List.getLast?_cons_cons, h]

/- ── Claim theorems ──────────────────────────────────────────────────── -/

/-- C1: the stop handler only awaits the recorder task, while the final
    chunk's completion callback is scheduled asynchronously by the
    library; the event loop is therefore free to run the handler's
    `combine_audio(session.chunks)` before the callback's append. Under
    the valid schedule `schedDrop` the merge input is [0], missing the
    final chunk 1, while under the equally valid `schedGood` it is [0, 1]:
    the append of the last chunk does NOT happen before the pipeline reads
    the list in every execution of the stop handler. -/
theorem C1_stop_merge_can_miss_final_chunk :
    (run schedDrop conc0).map (fun c => c.st.mergedInput) = some (some [0]) ∧
    ([0] : List Nat).contains finalChunk = false ∧
    (run schedGood conc0).map (fun c => c.st.mergedInput)
      = some (some ([0] ++ [finalChunk])) := by
  decide

/-- C4: merge of a single-element chunk list returns that chunk itself —
    the returned path is the input path and the file system is untouched
    (no copy, re-encode, or byte transformation), so the result is the
    input byte-for-byte. -/
theorem C4_merge_singleton_identity (c : Nat) (fs : FS) (env : ConcatEnv) :
    combine_audio [c] fs env = (Except.ok c, fs) :=
  rfl

/-- C5: a stop command while the session is not active is rejected with
    the not-recording message, leaving session, bot state and file system
    exactly as they were — no stage of the pipeline runs and no exception
    escapes. -/
theorem C5_stop_idle_rejected (s : Session) (bot : BotState)
    (inter : Interaction) (env : RecordEnv) (fs : FS)
    (h : s.active = false) :
    record RAction.stop s bot inter env fs
      = ⟨s, bot, fs, [Msg.notRecording], [], none⟩ := by
  simp [record, h]

theorem C5_stop_idle_rejected_witness :
    Session.init.active = false ∧
    record RAction.stop Session.init bot0 inter0 envFail fs0
      = ⟨Session.init, bot0, fs0, [Msg.notRecording], [], none⟩ :=
  ⟨rfl, C5_stop_idle_rejected Session.init bot0 inter0 envFail fs0 rfl⟩

/-- C6: a start command while the session is active is rejected with the
    already-recording message and changes nothing: in particular the task
    handle is untouched, so no second rotation task is ever spawned. -/
theorem C6_start_while_recording_rejected (s : Session) (bot : BotState)
    (inter : Interaction) (env : RecordEnv) (fs : FS)
    (h : s.active = true) :
    record RAction.start s bot inter env fs
      = ⟨s, bot, fs, [Msg.alreadyRecording], [], none⟩ := by
  simp [record, h]

theorem C6_start_while_recording_rejected_witness :
    sFail.active = true ∧
    record RAction.start sFail bot0 inter0 envFail fs0
      = ⟨sFail, bot0, fs0, [Msg.alreadyRecording], [], none⟩ :=
  ⟨rfl, C6_start_while_recording_rejected sFail bot0 inter0 envFail fs0 rfl⟩

/-- C7: from any session state, leave ends with the freshly initialised
    session (Idle, chunks empty, connection released, task cleared); it
    has no failure path by construction, and it is idempotent — a second
    leave from the resulting state changes nothing and disconnects
    nothing. -/
theorem C7_leave_resets_and_idempotent (s : Session) :
    (leave s).1 = Session.init ∧
    (leave s).1.active = false ∧
    (leave s).1.chunks = [] ∧
    (leave s).1.vc = none ∧
    (leave s).1.task = none ∧
    leave (leave s).1 = (Session.init, none) := by
  obtain ⟨a, vc, ch, t⟩ := s
  cases vc with
  | none => simp [leave, Session.init]
  | some v =>
      by_cases h : v.connected <;> simp [leave, Session.init, h]

/-- C2 counterexample: with the transcribe stage failing, the stop handler
    ends with the session NOT back at the initial state — `chunks` still
    holds both descriptors — and the only message sent is the processing
    notice (no failure report): the claimed automatic return to Idle with
    `chunks` reset, and the claimed failure report, are false on the code. -/
theorem C2_counterexample :
    (record RAction.stop sFail bot0 inter0 envFail fsFail).exn
        = some "ffmpeg failed" ∧
    (record RAction.stop sFail bot0 inter0 envFail fsFail).session.chunks
        = [10, 11] ∧
    decide ((record RAction.stop sFail bot0 inter0 envFail fsFail).session
        = Session.init) = false ∧
    (record RAction.stop sFail bot0 inter0 envFail fsFail).msgs
        = [Msg.processing] := by
  refine ⟨rfl, rfl, ?_, rfl⟩
  decide

/-- C2 (amended): when a stop is accepted, a fully successful pipeline
    resets the session to the initial state and delivers the document; on
    any stage failure the remaining stages (in particular delivery) are
    aborted and the raw chunk files are untouched on disk, but the session
    is NOT reset — `chunks` keeps its contents, with only `active` cleared
    and the task handle gone — and no failure report is sent: the
    exception escapes the handler uncaught. -/
theorem C2_stop_pipeline_behavior (s : Session) (bot : BotState)
    (inter : Interaction) (env : RecordEnv) (fs : FS)
    (hact : s.active = true) :
    ((record RAction.stop s bot inter env fs).exn = none →
        (record RAction.stop s bot inter env fs).session = Session.init ∧
        Stage.deliver ∈ (record RAction.stop s bot inter env fs).stages) ∧
    (∀ e, (record RAction.stop s bot inter env fs).exn = some e →
        (record RAction.stop s bot inter env fs).session.chunks = s.chunks ∧
        (record RAction.stop s bot inter env fs).session.active = false ∧
        (record RAction.stop s bot inter env fs).session.task = none ∧
        Stage.deliver ∉ (record RAction.stop s bot inter env fs).stages ∧
        (record RAction.stop s bot inter env fs).msgs = [Msg.processing] ∧
        ∀ p, p ≠ env.cenv.flistPath → p ≠ env.cenv.outPath →
          p ≠ env.tenv.mp3Path →
          (record RAction.stop s bot inter env fs).fs p = fs p) := by
  have hb : (!s.active) = false := by simp [hact]
  rcases hc : combine_audio s.chunks fs env.cenv with ⟨cres, fs1⟩
  have hfs1 : ∀ p, p ≠ env.cenv.flistPath → p ≠ env.cenv.outPath →
      fs1 p = fs p := by
    intro p h1 h2
    have := combine_audio_fs_apply s.chunks fs env.cenv p h1 h2
    rw [hc] at this
    exact this
  cases cres with
  | error e =>
      simp only [record, hb, Bool.false_eq_true, if_false, hc]
      constructor
      · intro h; cases h
      · intro e2 he2
        refine ⟨by simp, by simp, by simp, by decide, by simp, ?_⟩
        intro p h1 h2 _
        exact hfs1 p h1 h2
  | ok merged =>
      have hts : ∀ p, p ≠ env.cenv.flistPath → p ≠ env.cenv.outPath →
          p ≠ env.tenv.mp3Path → (transcribe merged fs1 env.tenv).fs p = fs p := by
        intro p h1 h2 h3
        rw [transcribe_fs_apply merged fs1 env.tenv p h3]
        exact hfs1 p h1 h2
      rcases ht : (transcribe merged fs1 env.tenv).result with e | text
      · simp only [record, hb, Bool.false_eq_true, if_false, hc, ht]
        constructor
        · intro h; cases h
        · intro e2 he2
          exact ⟨by simp, by simp, by simp, by decide, by simp,
                 fun p h1 h2 h3 => hts p h1 h2 h3⟩
      · rcases hs : env.summarizer text with e | md
        · simp only [record, hb, Bool.false_eq_true, if_false, hc, ht, hs]
          constructor
          · intro h; cases h
          · intro e2 he2
            exact ⟨by simp, by simp, by simp, by decide, by simp,
                 fun p h1 h2 h3 => hts p h1 h2 h3⟩
        · rcases hr : env.render md with e | pdfBytes
          · simp only [record, hb, Bool.false_eq_true, if_false, hc, ht, hs, hr]
            constructor
            · intro h; cases h
            · intro e2 he2
              exact ⟨by simp, by simp, by simp, by decide, by simp,
                 fun p h1 h2 h3 => hts p h1 h2 h3⟩
          · simp only [record, hb, Bool.false_eq_true, if_false, hc, ht, hs, hr]
            constructor
            · intro _
              exact ⟨by simp, by decide⟩
            · intro e2 he2; cases he2

theorem C2_stop_pipeline_behavior_witness :
    sFail.active = true ∧
    (record RAction.stop sFail bot0 inter0 envFail fsFail).exn
        = some "ffmpeg failed" ∧
    (record RAction.stop sFail bot0 inter0 envFail fsFail).session.chunks
        = sFail.chunks ∧
    Stage.deliver ∉ (record RAction.stop sFail bot0 inter0 envFail fsFail).stages := by
  have h := (C2_stop_pipeline_behavior sFail bot0 inter0 envFail fsFail rfl).2
      "ffmpeg failed" rfl
  exact ⟨rfl, rfl, h.1, h.2.2.2.1⟩

/-- C3 counterexample: under the valid schedule `schedFinalizing` the
    `/process` command arrives in the Finalizing window — the stop handler
    has cleared `active` and is suspended at its notice send, its pipeline
    not yet invoked (merge input still unset, its pipeline actions still
    queued) — and the guard lets it through: `procOutcome = some false`
    records that the on-demand pipeline stages ran, not a busy rejection.
    The claim that `process` is rejected whenever the session is Recording
    OR Finalizing is therefore false on the code. -/
theorem C3_counterexample :
    (run schedFinalizing conc0).map
        (fun c => (c.st.procOutcome, c.st.mergedInput, c.stopQ)) =
      some (some false, none,
            [Act.pipelineMerge, Act.pipelineRest, Act.resetSess]) := by
  decide

/-- C3 (amended): the on-demand `/process` command is rejected with the
    busy message — running no pipeline stage, mutating nothing — exactly
    while the session is Recording (`active` set); once a stop has cleared
    `active`, including the whole Finalizing window while the stop
    pipeline has not finished, the guard passes and no busy rejection
    occurs. -/
theorem C3_process_guard (s : Session) (info : FileInfo) (wavPath : Nat)
    (env : RecordEnv) (fs : FS) :
    (s.active = true →
        process s info wavPath env fs = ⟨s, fs, [Msg.busy], [], none⟩) ∧
    (s.active = false →
        Msg.busy ∉ (process s info wavPath env fs).msgs) := by
  constructor
  · intro h
    simp [process, h]
  · intro h
    by_cases hi : (info.present && info.isFile && info.wavSuffix) = true
    · rcases ht : (transcribe wavPath fs env.tenv).result with e | text
      · simp [process, h, hi, ht]
      · rcases hs : env.summarizer text with e | md
        · simp [process, h, hi, ht, hs]
        · rcases hr : env.render md with e | pdfBytes
          · simp [process, h, hi, ht, hs, hr]
          · simp [process, h, hi, ht, hs, hr]
    · simp [process, h, hi]

theorem C3_process_guard_witness :
    sFail.active = true ∧
    process sFail ⟨true, true, true⟩ 10 envFail fsFail
      = ⟨sFail, fsFail, [Msg.busy], [], none⟩ :=
  ⟨rfl, (C3_process_guard sFail ⟨true, true, true⟩ 10 envFail fsFail).1 rfl⟩

/-- C8: the transcription fallback policy. If the first attempt succeeds
    there is no re-encode and no retry. If it fails there is exactly one
    re-encode: a failing re-encode is terminal with zero retries, and a
    successful re-encode is followed by exactly one retried transcription
    whose outcome — success or failure — is final. -/
theorem C8_transcribe_fallback_once (wavPath : Nat) (fs : FS)
    (env : TranscribeEnv) :
    (∀ t, firstAttempt wavPath fs env = Except.ok t →
        transcribe wavPath fs env = ⟨Except.ok t, fs, 0, 0⟩) ∧
    (∀ e, firstAttempt wavPath fs env = Except.error e →
        (transcribe wavPath fs env).reencodes = 1 ∧
        (∀ e2, env.ffmpegMp3 (fs wavPath) = Except.error e2 →
            transcribe wavPath fs env = ⟨Except.error e2, fs, 1, 0⟩) ∧
        (∀ mp3, env.ffmpegMp3 (fs wavPath) = Except.ok mp3 →
            (transcribe wavPath fs env).result = env.whisper mp3 ∧
            (transcribe wavPath fs env).retries = 1)) := by
  constructor
  · intro t h1
    simp [transcribe, h1]
  · intro e h1
    rcases h2 : env.ffmpegMp3 (fs wavPath) with e2 | mp3
    · refine ⟨by simp [transcribe, h1, h2], ?_, ?_⟩
      · intro e3 h3
        cases h3
        simp [transcribe, h1, h2]
      · intro mp3 h3
        cases h3
    · refine ⟨by simp [transcribe, h1, h2], ?_, ?_⟩
      · intro e3 h3
        cases h3
      · intro mp3a h3
        cases h3
        constructor
        · simp [transcribe, h1, h2]
        · simp [transcribe, h1, h2]

theorem C8_transcribe_fallback_once_witness :
    firstAttempt 5 fsT envT = Except.error "bad" ∧
    (transcribe 5 fsT envT).reencodes = 1 ∧
    (transcribe 5 fsT envT).retries = 1 ∧
    (transcribe 5 fsT envT).result = Except.ok "text" := by
  have h := (C8_transcribe_fallback_once 5 fsT envT).2 "bad" rfl
  have hm := h.2.2 [9] rfl
  exact ⟨rfl, h.1, hm.2, hm.1.trans rfl⟩

/-- C9 counterexample: the bot holds a live connection `vcB` to the
    target's guild (guild 2), yet `safe_connect` returns the session's
    cached live client `vcA`, which is a connection to a different guild —
    not the existing connection to the target's scope. The claim that a
    live connection to the target's guild is always returned is therefore
    false on the code (the cached-client check has no guild comparison). -/
theorem C9_counterexample :
    vcB ∈ botC9.voiceClients ∧
    vcB.guild = interC9.guild ∧
    vcB.connected = true ∧
    safe_connect sC9 botC9 interC9 9 = Except.ok (vcA, sC9, botC9) ∧
    (vcA.guild == interC9.guild) = false :=
  ⟨by decide, rfl, rfl, rfl, by decide⟩

/-- C9 (amended): if the session's cached client is live, `safe_connect`
    returns it unchanged — regardless of the target guild — with session
    and bot state untouched, creating no second connection; otherwise,
    whenever the scan finds a live connection to the target guild, that
    connection is adopted into the session and returned, again with the
    bot's connection list unchanged (no second connection). A fresh
    connection is only ever made when neither exists. -/
theorem C9_connect_reuse (s : Session) (bot : BotState)
    (inter : Interaction) (fresh : Nat) :
    (∀ vc, s.vc = some vc → vc.connected = true →
        safe_connect s bot inter fresh = Except.ok (vc, s, bot)) ∧
    ((s.vc = none ∨ ∃ vc, s.vc = some vc ∧ vc.connected = false) →
      ∀ w, findGuildVC bot.voiceClients inter.guild = some w →
        safe_connect s bot inter fresh
          = Except.ok (w, { s with vc := some w }, bot)) := by
  constructor
  · intro vc hvc hconn
    simp [safe_connect, hvc, hconn]
  · rintro (hn | ⟨vc, hvc, hconn⟩) w hw
    · simp [safe_connect, safe_connect_rest, hn, hw]
    · simp [safe_connect, safe_connect_rest, hvc, hconn, hw]

theorem C9_connect_reuse_witness :
    Session.init.vc = none ∧
    findGuildVC botC9.voiceClients interC9.guild = some vcB ∧
    safe_connect Session.init botC9 interC9 9
      = Except.ok (vcB, { Session.init with vc := some vcB }, botC9) := by
  refine ⟨rfl, by decide, ?_⟩
  exact (C9_connect_reuse Session.init botC9 interC9 9).2 (Or.inl rfl) vcB
    (by decide)

/-- C10: the chunk-completion callback writes every speaker's audio to the
    one chunk file with a truncating open, so when the sink holds several
    speakers the persisted file ends up containing exactly the bytes of
    the last speaker iterated — every other speaker's audio in that chunk
    is discarded — while the chunk path is appended to the session's
    list. -/
theorem C10_last_speaker_wins (audioData : List (Nat × Bytes)) (fname : Nat)
    (fs : FS) (s : Session) (h : audioData ≠ []) :
    (on_chunk_end audioData fname fs s).1 fname
        = some (audioData.getLast h).2 ∧
    (on_chunk_end audioData fname fs s).2.chunks = s.chunks ++ [fname] := by
  constructor
  · show writeSpeakers audioData fname fs fname = _
    rw [writeSpeakers_self]
    rw [List.getLast?_eq_getLast _ h]
  · rfl

theorem C10_last_speaker_wins_witness :
    ([(1, [7]), (2, [9])] : List (Nat × Bytes)) ≠ [] ∧
    (on_chunk_end [(1, [7]), (2, [9])] 5 fs0 Session.init).1 5 = some [9] ∧
    (on_chunk_end [(1, [7]), (2, [9])] 5 fs0 Session.init).2.chunks = [5] := by
  have h := C10_last_speaker_wins [(1, [7]), (2, [9])] 5 fs0 Session.init
    (by decide)
  exact ⟨by decide, by simpa using h.1, by simpa using h.2⟩
